import Mathlib

/-!
Verification of the AI-assisted exam-integrity proctoring application.

The development shallowly embeds the scoring / event-logging state machine
of the application (the `processFrame` callback, its `logEvent` helper and
the geometry utilities it consumes).  JavaScript numbers are modelled as
exact rationals (`ℚ`); values produced by `Math.sqrt` / `Math.hypot` are
modelled as real numbers (`ℝ`).  Timestamps (`Date.now()`) are modelled as
integers (milliseconds).  JavaScript array indexing `a[i]`, which yields
`undefined` out of range, is modelled with `List.get?`; dereferencing a
field of such a possibly-`undefined` value (a `TypeError` in JavaScript)
is modelled with `Except Unit`.
-/

namespace ExamIntegrity

/-- A normalized 2-D landmark point as delivered by the vision library. -/
structure Point where
  x : ℚ
  y : ℚ
deriving DecidableEq

/-- JavaScript array indexing `landmarks[i]`: `undefined` (here `none`)
when the index is out of range. -/
def getLm (lm : List Point) (i : ℕ) : Option Point :=
  lm.get? i

/-- Indexing that is only used at call sites where the source has already
checked the landmark count (e.g. after the 21-point hand guard), so the
default is never actually produced on inputs satisfying the guard. -/
def pt (lm : List Point) (i : ℕ) : Point :=
  lm.getD i ⟨0, 0⟩

/-! ## Geometry utilities (src/unnamed/part_006, `geometryUtils`) -/

/-- `calculateHeadPose` from geometryUtils: yaw and pitch estimated from the
nose tip (1), cheeks (234, 454), chin (152) and forehead (10); returns
`(0, 0)` when any of those five landmarks is missing. -/
def calculateHeadPose (landmarks : List Point) : ℚ × ℚ :=
  match getLm landmarks 1, getLm landmarks 234, getLm landmarks 454,
        getLm landmarks 152, getLm landmarks 10 with
  | some noseTip, some leftCheek, some rightCheek, some chin, some forehead =>
      let midPointX := (leftCheek.x + rightCheek.x) / 2
      let width := |rightCheek.x - leftCheek.x|
      let yaw := (noseTip.x - midPointX) / width
      let midPointY := (forehead.y + chin.y) / 2
      let height := |chin.y - forehead.y|
      let pitch := (noseTip.y - midPointY) / height
      (yaw, pitch)
  | _, _, _, _, _ => (0, 0)

/-- `calculateMouthOpenness` from geometryUtils: ratio of the inner-lip
distance (landmarks 13 and 14) to the face height (landmarks 10 and 152);
returns `0` when any of those four landmarks is missing.  `Math.hypot` is
modelled by `Real.sqrt` of the sum of squares. -/
noncomputable def calculateMouthOpenness (landmarks : List Point) : ℝ :=
  match getLm landmarks 13, getLm landmarks 14, getLm landmarks 10,
        getLm landmarks 152 with
  | some upperLip, some lowerLip, some forehead, some chin =>
      let mouthDistance : ℝ :=
        Real.sqrt (((upperLip.x - lowerLip.x : ℚ) : ℝ) ^ 2 +
                   ((upperLip.y - lowerLip.y : ℚ) : ℝ) ^ 2)
      let faceHeight : ℝ :=
        Real.sqrt (((forehead.x - chin.x : ℚ) : ℝ) ^ 2 +
                   ((forehead.y - chin.y : ℚ) : ℝ) ^ 2)
      mouthDistance / faceHeight
  | _, _, _, _ => 0

/-- `calculateHandFaceDistance` from geometryUtils.  The source guards only
`handLandmarks.length === 0` before dereferencing `handLandmarks[9].x` and
`faceLandmarks[1].x`; dereferencing a missing entry is a thrown
`TypeError`, modelled as `Except.error ()`. -/
noncomputable def calculateHandFaceDistance
    (handLandmarks faceLandmarks : List Point) : Except Unit ℝ :=
  if handLandmarks.length = 0 then .ok 1 else
  match getLm handLandmarks 9, getLm faceLandmarks 1 with
  | some hand, some face =>
      .ok (Real.sqrt (((hand.x - face.x : ℚ) : ℝ) ^ 2 +
                      ((hand.y - face.y : ℚ) : ℝ) ^ 2))
  | _, _ => .error ()

/-! ## Exam configuration (src/App.tsx / src/unnamed/part_004) -/

/-- The `examMode` configuration value. -/
inductive ExamMode where
  | MCQ
  | Coding
  | Written
deriving DecidableEq

/-- `AppConfig` (the fields read by the scorer). -/
structure AppConfig where
  privacyMode : Bool
  invisibleProctor : Bool
  examMode : ExamMode
  demoMode : Bool
  voiceActivityDetection : Bool
deriving DecidableEq

/-! ## Score update (`setScore` updater inside `processFrame`,
src/App.tsx lines 240-248 and src/unnamed/part_004 lines 530-538) -/

/-- The per-frame score updater passed to `setScore`: recovery 0.05 only on
deduction-free frames, exam-mode multiplier on the deduction, then the
clamp to [0, 100]. -/
def scoreUpdate (examMode : ExamMode) (deduction : ℚ) (prev : ℚ) : ℚ :=
  let recovery : ℚ := if deduction > 0 then 0 else 1/20
  let multiplier : ℚ :=
    if examMode = ExamMode.Coding then 6/5
    else if examMode = ExamMode.Written then 4/5
    else 1
  max 0 (min 100 (prev - deduction * multiplier + recovery))

/-- Modelled from the spec's words (for comparison with `scoreUpdate`):
"The net per-frame delta (recovery minus deduction) is scaled by an
exam-mode multiplier before being applied", i.e.
`clamp (s + (r - d) * multiplier)` with the same recovery and multiplier
values as the code. -/
def specScoreUpdate (examMode : ExamMode) (deduction : ℚ) (prev : ℚ) : ℚ :=
  let recovery : ℚ := if deduction > 0 then 0 else 1/20
  let multiplier : ℚ :=
    if examMode = ExamMode.Coding then 6/5
    else if examMode = ExamMode.Written then 4/5
    else 1
  max 0 (min 100 (prev + (recovery - deduction) * multiplier))

/-- The scores reached from the initial score 100 by a sequence of frame
updates, one `(examMode, deduction)` input per frame (the two MediaPipe
callbacks both funnel into this same updater). -/
def scoreTrace (frames : List (ExamMode × ℚ)) : List ℚ :=
  frames.scanl (fun s f => scoreUpdate f.1 f.2 s) 100

/-! ## Events and the event log (`logEvent` and `captureScreenshot`,
src/App.tsx lines 62-118 and src/unnamed/part_004 lines 78-134) -/

/-- `IntegrityEvent['type']`. -/
inductive EventType where
  | LOOKING_AWAY
  | FACE_MISSING
  | MULTIPLE_FACES
  | TALKING
  | HAND_NEAR_FACE
  | SUSPICIOUS_HAND_MOVEMENT
  | SUSPICIOUS_HAND_ACTIVITY
deriving DecidableEq

/-- `IntegrityEvent['severity']`. -/
inductive Severity where
  | LOW
  | MEDIUM
  | HIGH
deriving DecidableEq

/-- The JPEG data URL produced by `tempCanvas.toDataURL` (its byte content
is irrelevant to the scorer; only its presence matters). -/
inductive Screenshot where
  | jpeg
deriving DecidableEq

/-- Availability of the DOM resources `captureScreenshot` dereferences:
`canvasRef.current`, `videoRef.current` and the 2-D drawing context. -/
structure CaptureEnv where
  hasCanvas : Bool
  hasVideo : Bool
  hasCtx : Bool
deriving DecidableEq

/-- `captureScreenshot`: returns `undefined` unless privacy mode is on and
the canvas, the video element and a 2-D context are all available. -/
def captureScreenshot (privacyMode : Bool) (env : CaptureEnv) : Option Screenshot :=
  if !privacyMode then none
  else if env.hasCanvas && env.hasVideo then
    if env.hasCtx then some Screenshot.jpeg else none
  else none

/-- One `IntegrityEvent` record (the random UUID `id` is supplied by the
browser and carries no information used by the scorer, so it is omitted). -/
structure IntegrityEvent where
  timestamp : ℤ
  type : EventType
  severity : Severity
  text : String
  screenshotUrl : Option Screenshot
deriving DecidableEq

/-- The mutable state read and written by `logEvent`: the `lastEventTime`
ref and the append-only `events` array. -/
structure LogState where
  lastEventTime : ℤ
  events : List IntegrityEvent
deriving DecidableEq

/-- The state at application start: `lastEventTime` ref initialized to 0,
empty event list. -/
def initialLog : LogState :=
  { lastEventTime := 0, events := [] }

/-- `logEvent`: if fewer than 2000 ms have elapsed since the last appended
event of any kind, return with the state unchanged; otherwise set
`lastEventTime` to `now` and append a new event carrying the (privacy
gated) screenshot. -/
def logEvent (cfg : AppConfig) (env : CaptureEnv) (now : ℤ)
    (type : EventType) (severity : Severity) (text : String)
    (s : LogState) : LogState :=
  if now - s.lastEventTime < 2000 then s
  else
    { lastEventTime := now,
      events := s.events ++
        [{ timestamp := now, type := type, severity := severity,
           text := text,
           screenshotUrl := captureScreenshot cfg.privacyMode env }] }

/-- One external trigger of `logEvent` (the configuration and DOM
availability are read at call time). -/
structure LogCall where
  time : ℤ
  type : EventType
  severity : Severity
  text : String
  cfg : AppConfig
  env : CaptureEnv

/-- A whole session of `logEvent` triggers applied in order. -/
def runLog (calls : List LogCall) (s : LogState) : LogState :=
  calls.foldl (fun st c => logEvent c.cfg c.env c.time c.type c.severity c.text st) s

/-! ## The looking-away block of `processFrame`
(src/App.tsx lines 164-185, identical in src/unnamed/part_004 lines 332-353).
`yaw` and `pitch` are the values of `calculateHeadPose`; the block returns
the `isLookingAway` status flag, the updated `lookingAwayStartTime` ref,
the deduction contributed this frame, and the updated log state. -/

/-- The looking-away detection / grace-period block.  The three sequential
`if` assignments to `isLookingAway` are the displayed disjunction;
`maxLookDown` widens the downward band in Written mode. -/
def lookingAwayStep (cfg : AppConfig) (env : CaptureEnv) (now : ℤ)
    (yaw pitch : ℚ) (lookStart : Option ℤ) (log : LogState) :
    Bool × Option ℤ × ℚ × LogState :=
  let maxLookDown : ℚ := if cfg.examMode = ExamMode.Written then 4/5 else 1/5
  let isLookingAway : Bool :=
    decide (|yaw| > 1/4) || decide (pitch < -(1/5)) || decide (pitch > maxLookDown)
  if isLookingAway then
    match lookStart with
    | none => (true, some now, 0, log)
    | some t0 =>
        if now - t0 > 2000 then
          (true, some t0, 1/10,
            if now - log.lastEventTime > 5000 then
              let dir : String :=
                if yaw > 0 then "Right" else if yaw < 0 then "Left"
                else if pitch > 0 then "Down" else "Up"
              logEvent cfg env now EventType.LOOKING_AWAY Severity.MEDIUM
                ("Looking " ++ dir ++ " detected.") log
            else log)
        else (true, some t0, 0, log)
  else (false, none, 0, log)

/-! ## The talking block of `processFrame`
(src/unnamed/part_004 lines 355-368; the same block with the
voice-activity conjunct, also at src/App.tsx second variant lines 698-711).
`mouthOpen` is the value of `calculateMouthOpenness`. -/

/-- The talking detection / grace-period block: the status flag is raised
only when the openness exceeds the threshold AND `voiceActivityDetection`
is on; the deduction needs the 1500 ms grace period on top. -/
noncomputable def talkingStep (cfg : AppConfig) (env : CaptureEnv) (now : ℤ)
    (mouthOpen : ℝ) (talkStart : Option ℤ) (log : LogState) :
    Bool × Option ℤ × ℚ × LogState :=
  if mouthOpen > 15/100 ∧ cfg.voiceActivityDetection = true then
    match talkStart with
    | none => (true, some now, 0, log)
    | some t0 =>
        if now - t0 > 1500 then
          (true, some t0, 1/5,
            if now - log.lastEventTime > 4000 then
              logEvent cfg env now EventType.TALKING Severity.MEDIUM
                "Sustained mouth movement detected." log
            else log)
        else (true, some t0, 0, log)
  else (false, none, 0, log)

/-! ## Hand analysis (src/services/handMeshUtils.ts) -/

/-- `HandGesture['type']`. -/
inductive GestureType where
  | OPEN_PALM
  | CLOSED_FIST
  | POINTING
  | PEACE_SIGN
  | THUMBS_UP
  | OK_SIGN
  | UNKNOWN
deriving DecidableEq

/-- A recognized `HandGesture`. -/
structure HandGesture where
  type : GestureType
  confidence : ℚ
  text : String
deriving DecidableEq

/-- `recognizeGesture`: finger-extension counting plus the OK-sign distance
test (`Math.sqrt`, hence classical). -/
noncomputable def recognizeGesture (landmarks : List Point) : HandGesture :=
  if landmarks.length < 21 then
    { type := GestureType.UNKNOWN, confidence := 0, text := "Insufficient landmarks" }
  else
    let isThumbExtended := decide ((pt landmarks 4).y < (pt landmarks 3).y)
    let isIndexExtended := decide ((pt landmarks 8).y < (pt landmarks 6).y)
    let isMiddleExtended := decide ((pt landmarks 12).y < (pt landmarks 10).y)
    let isRingExtended := decide ((pt landmarks 16).y < (pt landmarks 14).y)
    let isPinkyExtended := decide ((pt landmarks 20).y < (pt landmarks 18).y)
    let extendedFingers :=
      ([isThumbExtended, isIndexExtended, isMiddleExtended,
        isRingExtended, isPinkyExtended].filter id).length
    let fallback : HandGesture :=
      { type := GestureType.UNKNOWN, confidence := 3/10,
        text := toString extendedFingers ++ " fingers extended" }
    if extendedFingers = 5 then
      { type := GestureType.OPEN_PALM, confidence := 9/10, text := "Open palm detected" }
    else if extendedFingers = 0 then
      { type := GestureType.CLOSED_FIST, confidence := 9/10, text := "Closed fist detected" }
    else if isIndexExtended && decide (extendedFingers = 1) then
      { type := GestureType.POINTING, confidence := 17/20, text := "Pointing gesture detected" }
    else if isIndexExtended && isMiddleExtended && decide (extendedFingers = 2) then
      { type := GestureType.PEACE_SIGN, confidence := 4/5, text := "Peace sign detected" }
    else if isThumbExtended && decide (extendedFingers = 1) then
      { type := GestureType.THUMBS_UP, confidence := 4/5, text := "Thumbs up detected" }
    else if isThumbExtended && isIndexExtended && decide (extendedFingers = 2) then
      let thumbIndexDistance : ℝ :=
        Real.sqrt ((((pt landmarks 4).x - (pt landmarks 8).x : ℚ) : ℝ) ^ 2 +
                   (((pt landmarks 4).y - (pt landmarks 8).y : ℚ) : ℝ) ^ 2)
      if thumbIndexDistance < 1/10 then
        { type := GestureType.OK_SIGN, confidence := 3/4, text := "OK sign detected" }
      else fallback
    else fallback

/-- `calculateHandSize`: wrist-to-middle-fingertip distance. -/
noncomputable def calculateHandSize (landmarks : List Point) : ℝ :=
  if landmarks.length < 21 then 0
  else
    Real.sqrt ((((pt landmarks 12).x - (pt landmarks 0).x : ℚ) : ℝ) ^ 2 +
               (((pt landmarks 12).y - (pt landmarks 0).y : ℚ) : ℝ) ^ 2)

/-- `calculateMovementSpeed`: mean landmark displacement between two
frames of the same hand. -/
noncomputable def calculateMovementSpeed (currentLandmarks previousLandmarks : List Point) : ℝ :=
  if currentLandmarks.length < 21 ∨ previousLandmarks.length < 21 then 0
  else
    ((currentLandmarks.zip previousLandmarks).foldl
      (fun acc cp =>
        acc + Real.sqrt (((cp.1.x - cp.2.x : ℚ) : ℝ) ^ 2 +
                         ((cp.1.y - cp.2.y : ℚ) : ℝ) ^ 2)) 0) /
    (currentLandmarks.length : ℝ)

/-- The `HandAnalysis` record returned by `analyzeHandActivity`. -/
structure HandAnalysis where
  landmarks : List Point
  gesture : HandGesture
  isNearFace : Bool
  handSize : ℝ
  movementSpeed : ℝ
  suspiciousActivity : Bool

/-- `analyzeHandActivity`: gesture, hand size, movement speed,
wrist-to-nose proximity and the derived suspicious-activity flag. -/
noncomputable def analyzeHandActivity (landmarks : List Point)
    (previousLandmarks : Option (List Point))
    (faceLandmarks : Option (List Point)) : HandAnalysis :=
  let gesture := recognizeGesture landmarks
  let handSize := calculateHandSize landmarks
  let movementSpeed :=
    match previousLandmarks with
    | some prev => calculateMovementSpeed landmarks prev
    | none => 0
  let isNearFace : Bool :=
    match faceLandmarks with
    | some face =>
        if 0 < face.length then
          let wrist := pt landmarks 0
          let nose := pt face 1
          let distance : ℝ :=
            Real.sqrt (((wrist.x - nose.x : ℚ) : ℝ) ^ 2 +
                       ((wrist.y - nose.y : ℚ) : ℝ) ^ 2)
          if distance < 3/10 then true else false
        else false
    | none => false
  let suspiciousActivity : Bool :=
    isNearFace ||
    (if movementSpeed > 1/10 then true else false) ||
    (decide (gesture.type = GestureType.POINTING) && isNearFace) ||
    (decide (gesture.type = GestureType.CLOSED_FIST) && isNearFace) ||
    (if handSize < 1/20 then true else false)
  { landmarks := landmarks, gesture := gesture, isNearFace := isNearFace,
    handSize := handSize, movementSpeed := movementSpeed,
    suspiciousActivity := suspiciousActivity }

/-! ## The enhanced hand loop of `processFrame`
(src/unnamed/part_004 lines 391-520, identical in the second src/App.tsx
variant).  Drawing calls are pure canvas output and are not part of the
scorer state. -/

/-- The scorer state threaded through the enhanced hand loop:
`currentStatus.handNearFace`, the frame's accumulated `deduction`, the
log state, and the `previousHandLandmarks.current` slots (a JavaScript
array written at arbitrary indices, modelled as a map from index). -/
structure HandLoopState where
  handNearFace : Bool
  deduction : ℚ
  log : LogState
  prevHands : ℕ → Option (List Point)

/-- The body of the enhanced hand loop for the hand at `handIndex`: skip
(`continue`) any hand with fewer than 21 landmarks, otherwise analyze it,
add the 0.3 deduction and log on suspicious activity, raise
`handNearFace`, and store the landmarks in the previous-frame slot. -/
noncomputable def enhancedHandBody (cfg : AppConfig) (env : CaptureEnv)
    (now : ℤ) (faceLm : Option (List Point)) (handIndex : ℕ)
    (landmarks : List Point) (s : HandLoopState) : HandLoopState :=
  if landmarks.length < 21 then s
  else
    let analysis := analyzeHandActivity landmarks (s.prevHands handIndex) faceLm
    let s1 :=
      if analysis.suspiciousActivity then
        { s with
          deduction := s.deduction + 3/10,
          log :=
            if now - s.log.lastEventTime > 3000 then
              if analysis.isNearFace then
                logEvent cfg env now EventType.HAND_NEAR_FACE Severity.HIGH
                  ("Hand near face detected: " ++ analysis.gesture.text) s.log
              else if analysis.movementSpeed > 1/10 then
                logEvent cfg env now EventType.SUSPICIOUS_HAND_MOVEMENT Severity.MEDIUM
                  ("Rapid hand movement: " ++ analysis.gesture.text) s.log
              else
                logEvent cfg env now EventType.SUSPICIOUS_HAND_ACTIVITY Severity.MEDIUM
                  ("Suspicious hand activity: " ++ analysis.gesture.text) s.log
            else s.log }
      else s
    let s2 := if analysis.isNearFace then { s1 with handNearFace := true } else s1
    { s2 with prevHands := fun j => if j = handIndex then some landmarks else s2.prevHands j }

/-- The enhanced hand loop from index `i` on. -/
noncomputable def enhancedHandLoopFrom (cfg : AppConfig) (env : CaptureEnv)
    (now : ℤ) (faceLm : Option (List Point)) :
    ℕ → List (List Point) → HandLoopState → HandLoopState
  | _, [], s => s
  | i, h :: t, s =>
      enhancedHandLoopFrom cfg env now faceLm (i + 1) t
        (enhancedHandBody cfg env now faceLm i h s)

/-- The enhanced hand loop (`for handIndex = 0; ...`). -/
noncomputable def enhancedHandLoop (cfg : AppConfig) (env : CaptureEnv)
    (now : ℤ) (faceLm : Option (List Point)) (hands : List (List Point))
    (s : HandLoopState) : HandLoopState :=
  enhancedHandLoopFrom cfg env now faceLm 0 hands s

/-! ## The legacy hand loop of `processFrame`
(first src/App.tsx variant, lines 216-235).  It has no 21-point guard:
for each hand it calls `calculateHandFaceDistance` whenever a face is
present, and a thrown `TypeError` aborts the rest of `processFrame`
(modelled by the propagated `Except.error`). -/

/-- The legacy hand loop threading `currentStatus.handNearFace`. -/
noncomputable def legacyHandLoop (faceLm : Option (List Point)) :
    List (List Point) → Bool → Except Unit Bool
  | [], handNearFace => .ok handNearFace
  | h :: t, handNearFace =>
      match faceLm with
      | some face =>
          match calculateHandFaceDistance h face with
          | .error e => .error e
          | .ok dist =>
              legacyHandLoop faceLm t
                (if dist < 3/10 then true else handNearFace)
      | none => legacyHandLoop faceLm t handNearFace

/-! ## Concrete sample inputs used to instantiate the theorems -/

/-- The initial configuration of the enhanced variant
(`INITIAL_CONFIG`): privacy on, visible proctor, MCQ, live camera,
voice-activity detection on. -/
def sampleConfig : AppConfig :=
  { privacyMode := true, invisibleProctor := false, examMode := ExamMode.MCQ,
    demoMode := false, voiceActivityDetection := true }

/-- A configuration with the voice-activity-detection toggle disabled. -/
def vadOffConfig : AppConfig :=
  { sampleConfig with voiceActivityDetection := false }

/-- A DOM environment in which the canvas, video and 2-D context are all
available. -/
def sampleEnv : CaptureEnv :=
  { hasCanvas := true, hasVideo := true, hasCtx := true }

/-- A hand-loop state with nothing detected yet. -/
def sampleHandState : HandLoopState :=
  { handNearFace := false, deduction := 0, log := initialLog,
    prevHands := fun _ => none }

/-- A malformed hand landmark set: only 5 of the 21 contracted points. -/
def hand5 : List Point :=
  List.replicate 5 ⟨1/2, 1/2⟩

/-- A face landmark set whose nose-tip entry (index 1) is present. -/
def faceNose : List Point :=
  List.replicate 2 ⟨1/2, 1/2⟩

/-- A truncated face landmark set of 240 points: the inner lips (13, 14),
forehead (10) and chin (152) are all present (mouth visibly open), but
the right cheek (454) is out of range, i.e. `undefined`. -/
def face240 : List Point :=
  List.replicate 14 ⟨0, 0⟩ ++ [⟨0, 3/10⟩] ++
    List.replicate 137 ⟨0, 0⟩ ++ [⟨0, 1⟩] ++ List.replicate 87 ⟨0, 0⟩

/-! # Theorems -/

/-! ## Score bounds and the score update rule (C1, C2, C4) -/

/-- Every value produced by the score updater is nonnegative. -/
lemma scoreUpdate_nonneg (m : ExamMode) (d s : ℚ) : 0 ≤ scoreUpdate m d s :=
  le_max_left _ _

/-- Every value produced by the score updater is at most 100. -/
lemma scoreUpdate_le_hundred (m : ExamMode) (d s : ℚ) : scoreUpdate m d s ≤ 100 :=
  max_le (by norm_num) (min_le_left _ _)

/-- Every score in a trace seeded by an in-bounds score stays in bounds. -/
lemma scoreTrace_aux (l : List (ExamMode × ℚ)) :
    ∀ b : ℚ, 0 ≤ b → b ≤ 100 →
      ∀ s ∈ l.scanl (fun s f => scoreUpdate f.1 f.2 s) b, 0 ≤ s ∧ s ≤ 100 := by
  induction l with
  | nil =>
      intro b hb hb' s hs
      simp only [List.scanl, List.mem_singleton] at hs
      exact hs ▸ ⟨hb, hb'⟩
  | cons a l ih =>
      intro b hb hb' s hs
      simp only [List.scanl, List.mem_cons] at hs
      rcases hs with rfl | hs
      · exact ⟨hb, hb'⟩
      · exact ih _ (scoreUpdate_nonneg _ _ _) (scoreUpdate_le_hundred _ _ _) s hs

/-- C1: for every sequence of frame-processing score updates starting from
the initial score 100 — in particular under any interleaving of the
face-result and hand-result callbacks, both of which funnel into the same
clamped updater — every score in the trace lies in [0, 100], because each
update applies `max 0 (min 100 ·)`. -/
theorem score_trace_bounded (frames : List (ExamMode × ℚ)) :
    ∀ s ∈ scoreTrace frames, 0 ≤ s ∧ s ≤ 100 :=
  scoreTrace_aux frames 100 (by norm_num) (by norm_num)

/-- Witness for `score_trace_bounded` at a concrete two-frame trace. -/
theorem score_trace_bounded_witness :
    (94 : ℚ) ∈ scoreTrace [(ExamMode.Coding, 5), (ExamMode.MCQ, 0)] ∧
      (0 ≤ (94 : ℚ) ∧ (94 : ℚ) ≤ 100) :=
  ⟨by norm_num [scoreTrace, List.scanl, scoreUpdate, min_def, max_def],
    score_trace_bounded [(ExamMode.Coding, 5), (ExamMode.MCQ, 0)] 94
      (by norm_num [scoreTrace, List.scanl, scoreUpdate, min_def, max_def])⟩

/-- The clamp to [0, 100] is a congruence. -/
lemma clamp_congr (a b : ℚ) (h : a = b) :
    max 0 (min 100 a) = max 0 (min 100 b) := by rw [h]

/-- C2 counterexample: on a deduction-free frame in Coding mode the code
adds the unscaled recovery 0.05, whereas the claimed formula
`clamp (s + (r - d) * multiplier)` would add 0.06. -/
theorem recovery_not_scaled_by_multiplier :
    scoreUpdate ExamMode.Coding 0 50 = 1001/20 ∧
      specScoreUpdate ExamMode.Coding 0 50 = 2503/50 ∧
      scoreUpdate ExamMode.Coding 0 50 ≠ specScoreUpdate ExamMode.Coding 0 50 :=
  ⟨by norm_num [scoreUpdate, min_def, max_def],
    by norm_num [specScoreUpdate, min_def, max_def],
    by norm_num [scoreUpdate, specScoreUpdate, min_def, max_def]⟩

/-- C2 (amended): the multiplier (1.2 Coding, 0.8 Written, 1 MCQ) scales
only the deduction, not the recovery, so the spec's formula
`clamp (s + (r - d) * multiplier)` coincides with the code exactly on
frames with a positive deduction (where the recovery is 0) or in MCQ mode
(where the multiplier is 1). -/
theorem scoreUpdate_agrees_with_spec_formula (m : ExamMode) (d s : ℚ)
    (h : 0 < d ∨ m = ExamMode.MCQ) :
    scoreUpdate m d s = specScoreUpdate m d s := by
  rcases h with hd | hm
  · simp only [scoreUpdate, specScoreUpdate, gt_iff_lt, if_pos hd]
    exact clamp_congr _ _ (by ring)
  · subst hm
    simp only [scoreUpdate, specScoreUpdate]
    have h1 : (ExamMode.MCQ = ExamMode.Coding) = False := by simp
    have h2 : (ExamMode.MCQ = ExamMode.Written) = False := by simp
    simp only [h1, h2, if_false]
    exact clamp_congr _ _ (by ring)

/-- Witness for `scoreUpdate_agrees_with_spec_formula` on a Coding-mode
frame with deduction 1. -/
theorem scoreUpdate_agrees_with_spec_formula_witness :
    (0 : ℚ) < 1 ∧
      scoreUpdate ExamMode.Coding 1 50 = specScoreUpdate ExamMode.Coding 1 50 :=
  ⟨by norm_num,
    scoreUpdate_agrees_with_spec_formula ExamMode.Coding 1 50 (Or.inl (by norm_num))⟩

/-- C4: on a frame with zero total deduction the updater adds exactly the
fixed recovery 0.05 (strictly increasing the score) until the 100 cap
bites; on a frame with positive deduction no recovery is applied — the
result is the clamp of `s - d·multiplier` with no recovery term. -/
theorem recovery_only_on_clean_frames (m : ExamMode) (s d : ℚ) (hs : 0 ≤ s) :
    (d = 0 →
      scoreUpdate m d s = min 100 (s + 1/20) ∧
        (s + 1/20 ≤ 100 → scoreUpdate m d s = s + 1/20 ∧ s < scoreUpdate m d s)) ∧
    (0 < d →
      scoreUpdate m d s =
        max 0 (min 100 (s - d *
          (if m = ExamMode.Coding then 6/5
           else if m = ExamMode.Written then 4/5 else 1)))) := by
  constructor
  · rintro rfl
    have hrec : scoreUpdate m 0 s = max 0 (min 100 (s + 1/20)) := by
      unfold scoreUpdate
      norm_num
    have hpos : (0 : ℚ) ≤ min 100 (s + 1/20) :=
      le_min (by norm_num) (by linarith)
    constructor
    · rw [hrec, max_eq_right hpos]
    · intro hcap
      have : scoreUpdate m 0 s = s + 1/20 := by
        rw [hrec, max_eq_right hpos, min_eq_right hcap]
      exact ⟨this, by rw [this]; linarith⟩
  · intro hd
    unfold scoreUpdate
    rw [if_pos hd]
    ring_nf

/-- Witness for `recovery_only_on_clean_frames`: a clean MCQ frame at
score 50 recovers to 50.05, and a Coding frame with deduction 2 drops by
2.4 with no recovery. -/
theorem recovery_only_on_clean_frames_witness :
    scoreUpdate ExamMode.MCQ 0 50 = 50 + 1/20 ∧
      scoreUpdate ExamMode.Coding 2 50 =
        max 0 (min 100 (50 - 2 *
          (if ExamMode.Coding = ExamMode.Coding then 6/5
           else if ExamMode.Coding = ExamMode.Written then 4/5 else 1))) :=
  ⟨(((recovery_only_on_clean_frames ExamMode.MCQ 50 0 (by norm_num)).1 rfl).2
      (by norm_num)).1,
    (recovery_only_on_clean_frames ExamMode.Coding 50 2 (by norm_num)).2 (by norm_num)⟩

/-! ## The global event debounce (C3) and log monotonicity (C9) -/

/-- C3 counterexample: two triggers 200 ms apart (at 101900 and 102100,
after an event was appended at 100000).  The first trigger appends
nothing (it is inside the debounce window of the 100000 event), while the
second trigger does append — so it is not the case that for every two
triggers less than 2000 ms apart only the first results in an appended
event. -/
theorem debounce_second_trigger_appended :
    (logEvent sampleConfig sampleEnv 101900 EventType.TALKING Severity.MEDIUM
        "Sustained mouth movement detected."
        (logEvent sampleConfig sampleEnv 100000 EventType.MULTIPLE_FACES Severity.HIGH
          "Multiple people detected." initialLog) =
      logEvent sampleConfig sampleEnv 100000 EventType.MULTIPLE_FACES Severity.HIGH
        "Multiple people detected." initialLog) ∧
    (logEvent sampleConfig sampleEnv 102100 EventType.TALKING Severity.MEDIUM
        "Sustained mouth movement detected."
        (logEvent sampleConfig sampleEnv 101900 EventType.TALKING Severity.MEDIUM
          "Sustained mouth movement detected."
          (logEvent sampleConfig sampleEnv 100000 EventType.MULTIPLE_FACES Severity.HIGH
            "Multiple people detected." initialLog))).events.length = 2 := by
  constructor
  · simp [logEvent, initialLog]
  · simp [logEvent, initialLog, captureScreenshot, sampleConfig, sampleEnv]

/-- C3 (amended): `logEvent` appends a new event exactly when at least
2000 ms have elapsed since the last appended event of any kind, and
otherwise returns leaving the log and the last-event timestamp unchanged;
consequently of two triggers less than 2000 ms apart at most the earlier
one can append — if the first one appends, the second leaves the state
unchanged (but when the first one is itself debounced away, the second
may still append, which is why the claim's universal "only the first"
fails). -/
theorem logEvent_debounce (cfg cfg2 : AppConfig) (env env2 : CaptureEnv)
    (t1 t2 : ℤ) (ty ty2 : EventType) (sev sev2 : Severity) (tx tx2 : String)
    (s : LogState) :
    (t1 - s.lastEventTime < 2000 → logEvent cfg env t1 ty sev tx s = s) ∧
    (2000 ≤ t1 - s.lastEventTime →
      (logEvent cfg env t1 ty sev tx s).lastEventTime = t1 ∧
      (logEvent cfg env t1 ty sev tx s).events =
        s.events ++
          [{ timestamp := t1, type := ty, severity := sev, text := tx,
             screenshotUrl := captureScreenshot cfg.privacyMode env }]) ∧
    (2000 ≤ t1 - s.lastEventTime → t2 - t1 < 2000 →
      logEvent cfg2 env2 t2 ty2 sev2 tx2 (logEvent cfg env t1 ty sev tx s) =
        logEvent cfg env t1 ty sev tx s) := by
  refine ⟨fun h => ?_, fun h => ?_, fun h h2 => ?_⟩
  · rw [logEvent, if_pos h]
  · rw [logEvent, if_neg (by omega)]
    exact ⟨rfl, rfl⟩
  · have hL : (logEvent cfg env t1 ty sev tx s).lastEventTime = t1 := by
      rw [logEvent, if_neg (by omega)]
    rw [logEvent, if_pos (by rw [hL]; omega)]

/-- Witness for `logEvent_debounce`: an append at 5000 followed by a
debounced trigger at 6000. -/
theorem logEvent_debounce_witness :
    logEvent sampleConfig sampleEnv 6000 EventType.TALKING Severity.MEDIUM
        "Sustained mouth movement detected."
        (logEvent sampleConfig sampleEnv 5000 EventType.MULTIPLE_FACES Severity.HIGH
          "Multiple people detected." initialLog) =
      logEvent sampleConfig sampleEnv 5000 EventType.MULTIPLE_FACES Severity.HIGH
        "Multiple people detected." initialLog :=
  (logEvent_debounce sampleConfig sampleConfig sampleEnv sampleEnv 5000 6000
    EventType.MULTIPLE_FACES EventType.TALKING Severity.HIGH Severity.MEDIUM
    "Multiple people detected." "Sustained mouth movement detected."
    initialLog).2.2 (by norm_num [initialLog]) (by norm_num)

/-- One `logEvent` call only ever appends to the event array. -/
lemma logEvent_append_only (cfg : AppConfig) (env : CaptureEnv) (now : ℤ)
    (ty : EventType) (sev : Severity) (tx : String) (s : LogState) :
    ∃ tail, (logEvent cfg env now ty sev tx s).events = s.events ++ tail := by
  rw [logEvent]
  split_ifs
  · exact ⟨[], (List.append_nil _).symm⟩
  · exact ⟨_, rfl⟩

/-- A whole run of `logEvent` calls only ever appends to the event array. -/
lemma runLog_append_only :
    ∀ (calls : List LogCall) (s : LogState),
      ∃ tail, (runLog calls s).events = s.events ++ tail := by
  intro calls
  induction calls with
  | nil => exact fun s => ⟨[], by simp [runLog]⟩
  | cons c rest ih =>
      intro s
      obtain ⟨t1, h1⟩ :=
        logEvent_append_only c.cfg c.env c.time c.type c.severity c.text s
      obtain ⟨t2, h2⟩ := ih (logEvent c.cfg c.env c.time c.type c.severity c.text s)
      exact ⟨t1 ++ t2, by
        show (runLog rest _).events = _
        rw [h2, h1, List.append_assoc]⟩

/-- Invariant preservation along a run with monotone call times: the log
timestamps stay pairwise nondecreasing and bounded by `lastEventTime`. -/
lemma runLog_invariant :
    ∀ (calls : List LogCall) (s : LogState),
      List.Pairwise (· ≤ ·) (s.lastEventTime :: calls.map LogCall.time) →
      (∀ e ∈ s.events, e.timestamp ≤ s.lastEventTime) →
      List.Pairwise (· ≤ ·) (s.events.map IntegrityEvent.timestamp) →
      List.Pairwise (· ≤ ·) ((runLog calls s).events.map IntegrityEvent.timestamp) ∧
        ∀ e ∈ (runLog calls s).events, e.timestamp ≤ (runLog calls s).lastEventTime := by
  intro calls
  induction calls with
  | nil => exact fun s _ h2 h3 => ⟨h3, h2⟩
  | cons c rest ih =>
      intro s hmono hle hpair
      obtain ⟨hhead, htail⟩ := List.pairwise_cons.mp hmono
      rw [List.map_cons] at htail
      have hsc : s.lastEventTime ≤ c.time := hhead c.time (by simp)
      have hstep : runLog (c :: rest) s =
          runLog rest (logEvent c.cfg c.env c.time c.type c.severity c.text s) := rfl
      rw [hstep]
      by_cases hdb : c.time - s.lastEventTime < 2000
      · have hskip : logEvent c.cfg c.env c.time c.type c.severity c.text s = s := by
          rw [logEvent, if_pos hdb]
        rw [hskip]
        refine ih s ?_ hle hpair
        exact (List.pairwise_cons.mpr
          ⟨fun t ht => hhead t (by simp only [List.map_cons]; exact List.mem_cons_of_mem _ ht),
            (List.pairwise_cons.mp htail).2⟩)
      · have happ : logEvent c.cfg c.env c.time c.type c.severity c.text s =
            { lastEventTime := c.time,
              events := s.events ++
                [{ timestamp := c.time, type := c.type, severity := c.severity,
                   text := c.text,
                   screenshotUrl := captureScreenshot c.cfg.privacyMode c.env }] } := by
          rw [logEvent, if_neg hdb]
        rw [happ]
        refine ih _ (by simpa using htail) ?_ ?_
        · intro e he
          rcases List.mem_append.mp he with h | h
          · exact le_trans (hle e h) hsc
          · simp only [List.mem_singleton] at h
            subst h
            exact le_refl _
        · simp only [List.map_append, List.map_cons, List.map_nil]
          refine List.pairwise_append.mpr ⟨hpair, List.pairwise_singleton _ _, ?_⟩
          intro a ha b hb
          simp only [List.mem_singleton] at hb
          obtain ⟨e, he, rfl⟩ := List.mem_map.mp ha
          subst hb
          exact le_trans (hle e he) hsc

/-- C9: over any session whose trigger times are nondecreasing (the wall
clock of the single-threaded event loop), the event log has pairwise
nondecreasing timestamps, and the log is append-only — the log after any
prefix of the session is a prefix of the final log, so events are never
mutated or deleted. -/
theorem event_log_monotone (calls : List LogCall)
    (hmono : List.Pairwise (· ≤ ·) (initialLog.lastEventTime :: calls.map LogCall.time)) :
    List.Pairwise (· ≤ ·)
        ((runLog calls initialLog).events.map IntegrityEvent.timestamp) ∧
      ∀ n, ∃ tail, (runLog calls initialLog).events =
        (runLog (calls.take n) initialLog).events ++ tail := by
  constructor
  · exact (runLog_invariant calls initialLog hmono (by simp [initialLog])
      (by simp [initialLog])).1
  · intro n
    have hsplit : runLog calls initialLog =
        runLog (calls.drop n) (runLog (calls.take n) initialLog) := by
      rw [runLog, runLog, runLog, ← List.foldl_append, List.take_append_drop]
    rw [hsplit]
    exact runLog_append_only _ _

/-- Witness for `event_log_monotone` on a two-call session. -/
theorem event_log_monotone_witness :
    List.Pairwise (· ≤ ·)
      ((runLog
          [{ time := 5000, type := EventType.MULTIPLE_FACES, severity := Severity.HIGH,
             text := "Multiple people detected.", cfg := sampleConfig, env := sampleEnv },
           { time := 9000, type := EventType.LOOKING_AWAY, severity := Severity.MEDIUM,
             text := "Looking Right detected.", cfg := sampleConfig, env := sampleEnv }]
          initialLog).events.map IntegrityEvent.timestamp) :=
  (event_log_monotone
    [{ time := 5000, type := EventType.MULTIPLE_FACES, severity := Severity.HIGH,
       text := "Multiple people detected.", cfg := sampleConfig, env := sampleEnv },
     { time := 9000, type := EventType.LOOKING_AWAY, severity := Severity.MEDIUM,
       text := "Looking Right detected.", cfg := sampleConfig, env := sampleEnv }]
    (by norm_num [initialLog, List.pairwise_cons])).1

/-! ## Looking-away grace period (C5) and talking gating (C7) -/

/-- C5: with yaw 0.30 against the 0.25 threshold in MCQ mode, the
looking-away flag is raised immediately: on the first frame of the
condition the start timestamp is set to `now` with no deduction and no
event; on any later frame while the condition has persisted for less than
2000 ms there is still no deduction and no event; and the instant the
condition is false the start timestamp is cleared. -/
theorem lookingAway_grace_period (cfg : AppConfig) (env : CaptureEnv)
    (hmode : cfg.examMode = ExamMode.MCQ) (now t0 : ℤ) (log : LogState) :
    lookingAwayStep cfg env now (3/10) 0 none log = (true, some now, 0, log) ∧
      (now - t0 < 2000 →
        lookingAwayStep cfg env now (3/10) 0 (some t0) log = (true, some t0, 0, log)) ∧
      lookingAwayStep cfg env now 0 0 (some t0) log = (false, none, 0, log) := by
  obtain ⟨p, ip, m, dm, v⟩ := cfg
  simp only at hmode
  subst hmode
  have hW : (ExamMode.MCQ = ExamMode.Written) = False := by simp
  refine ⟨?_, fun h => ?_, ?_⟩
  · norm_num [lookingAwayStep, hW, abs_of_pos]
  · norm_num [lookingAwayStep, hW, abs_of_pos]
    omega
  · norm_num [lookingAwayStep, hW]

/-- Witness for `lookingAway_grace_period` at `now = 10000`,
`t0 = 9000`. -/
theorem lookingAway_grace_period_witness :
    lookingAwayStep sampleConfig sampleEnv 10000 (3/10) 0 (some 9000) initialLog =
      (true, some 9000, 0, initialLog) :=
  (lookingAway_grace_period sampleConfig sampleEnv rfl 10000 9000 initialLog).2.1
    (by norm_num)

/-- C7: the `isTalking` status flag can only be raised when the mouth
openness exceeds the 0.15 threshold AND the voice-activity-detection
toggle is enabled; with the toggle disabled the talking block contributes
no flag, no deduction and no event regardless of mouth openness. -/
theorem talking_requires_vad (cfg : AppConfig) (env : CaptureEnv) (now : ℤ)
    (mouthOpen : ℝ) (talkStart : Option ℤ) (log : LogState) :
    (cfg.voiceActivityDetection = false →
      talkingStep cfg env now mouthOpen talkStart log = (false, none, 0, log)) ∧
    ((talkingStep cfg env now mouthOpen talkStart log).1 = true →
      mouthOpen > 15/100 ∧ cfg.voiceActivityDetection = true) := by
  constructor
  · intro hv
    have hcond : ¬(mouthOpen > 15/100 ∧ cfg.voiceActivityDetection = true) := by
      rintro ⟨-, hvad⟩
      rw [hv] at hvad
      exact Bool.false_ne_true hvad
    rw [talkingStep.eq_def, if_neg hcond]
  · intro hflag
    by_cases hc : mouthOpen > 15/100 ∧ cfg.voiceActivityDetection = true
    · exact hc
    · rw [talkingStep.eq_def, if_neg hc] at hflag
      simp at hflag

/-- Witness for `talking_requires_vad`: wide-open mouth (openness 1) but
the toggle off. -/
theorem talking_requires_vad_witness :
    talkingStep vadOffConfig sampleEnv 5000 1 none initialLog =
      (false, none, 0, initialLog) :=
  (talking_requires_vad vadOffConfig sampleEnv 5000 1 none initialLog).1 rfl

/-! ## Screenshot gating (C8) -/

/-- C8 counterexample: with privacy mode enabled but the canvas not yet
available, no snapshot is captured — so capture is not equivalent to
privacy mode being enabled. -/
theorem screenshot_missing_despite_privacy :
    captureScreenshot true
        { hasCanvas := false, hasVideo := true, hasCtx := true } = none := rfl

/-- C8 (amended): a snapshot is captured only if privacy mode is enabled:
when `privacyMode` is false `captureScreenshot` returns `undefined` and
any event appended in that configuration carries no image; with privacy
mode on, the snapshot is captured exactly when the canvas, the video
element and the 2-D context are all available. -/
theorem captureScreenshot_gating (p : Bool) (env : CaptureEnv) :
    (p = false → captureScreenshot p env = none) ∧
    ((captureScreenshot p env).isSome = true ↔
      p = true ∧ env.hasCanvas = true ∧ env.hasVideo = true ∧ env.hasCtx = true) ∧
    (∀ (cfg : AppConfig) (env2 : CaptureEnv) (now : ℤ) (ty : EventType)
        (sev : Severity) (tx : String) (s : LogState),
      cfg.privacyMode = false →
      ∀ e ∈ (logEvent cfg env2 now ty sev tx s).events,
        e ∈ s.events ∨ e.screenshotUrl = none) := by
  obtain ⟨c, v, x⟩ := env
  refine ⟨fun hp => ?_, ?_, ?_⟩
  · subst hp
    rfl
  · cases p <;> cases c <;> cases v <;> cases x <;> simp [captureScreenshot]
  · intro cfg env2 now ty sev tx s hpm e he
    rw [logEvent] at he
    split_ifs at he
    · exact Or.inl he
    · rcases List.mem_append.mp he with h | h
      · exact Or.inl h
      · right
        simp only [List.mem_singleton] at h
        subst h
        show captureScreenshot cfg.privacyMode env2 = none
        rw [hpm]
        rfl

/-- Witness for `captureScreenshot_gating`: privacy off yields no image;
privacy on with all DOM resources available yields one. -/
theorem captureScreenshot_gating_witness :
    captureScreenshot false sampleEnv = none ∧
      (captureScreenshot true sampleEnv).isSome = true :=
  ⟨(captureScreenshot_gating false sampleEnv).1 rfl,
    (captureScreenshot_gating true sampleEnv).2.1.mpr ⟨rfl, rfl, rfl, rfl⟩⟩

/-! ## Malformed hand landmark sets (C6) -/

/-- C6 counterexample: in the first App.tsx variant, which has no 21-point
guard, a 5-point hand makes `calculateHandFaceDistance` dereference the
missing landmark 9 — the frame's hand processing throws (a `TypeError`)
instead of skipping the hand. -/
theorem legacy_malformed_hand_throws :
    legacyHandLoop (some faceNose) [hand5] false = .error () ∧
      calculateHandFaceDistance hand5 faceNose = .error () := by
  constructor <;> rfl

/-- C6 (amended): in the enhanced frame processor every hand landmark
set with fewer than 21 points is skipped (`continue`) without throwing:
the loop body is the identity on the scorer state for such a hand, so the
frame's deduction, statuses, event log and stored landmarks — and hence
the face-based signals and the score update — are unaffected by the
malformed hand data; a frame whose hands are all malformed leaves the
hand-loop state untouched. -/
theorem malformed_hand_skipped (cfg : AppConfig) (env : CaptureEnv) (now : ℤ)
    (faceLm : Option (List Point)) :
    (∀ (i : ℕ) (hand : List Point) (s : HandLoopState),
      hand.length < 21 → enhancedHandBody cfg env now faceLm i hand s = s) ∧
    (∀ (hands : List (List Point)) (i : ℕ) (s : HandLoopState),
      (∀ h ∈ hands, h.length < 21) →
      enhancedHandLoopFrom cfg env now faceLm i hands s = s) := by
  have hbody : ∀ (i : ℕ) (hand : List Point) (s : HandLoopState),
      hand.length < 21 → enhancedHandBody cfg env now faceLm i hand s = s := by
    intro i hand s hlen
    rw [enhancedHandBody, if_pos hlen]
  refine ⟨hbody, ?_⟩
  intro hands
  induction hands with
  | nil => intro i s _; rfl
  | cons h t ih =>
      intro i s hall
      show enhancedHandLoopFrom cfg env now faceLm (i + 1) t
          (enhancedHandBody cfg env now faceLm i h s) = s
      rw [hbody i h s (hall h (by simp))]
      exact ih (i + 1) s fun h' hh' => hall h' (List.mem_cons_of_mem _ hh')

/-- Witness for `malformed_hand_skipped` on a frame carrying one 5-point
hand. -/
theorem malformed_hand_skipped_witness :
    enhancedHandBody sampleConfig sampleEnv 0 none 0 hand5 sampleHandState =
        sampleHandState ∧
      enhancedHandLoopFrom sampleConfig sampleEnv 0 none 0 [hand5] sampleHandState =
        sampleHandState :=
  ⟨(malformed_hand_skipped sampleConfig sampleEnv 0 none).1 0 hand5 sampleHandState
      (by norm_num [hand5]),
    (malformed_hand_skipped sampleConfig sampleEnv 0 none).2 [hand5] 0 sampleHandState
      (by intro h hh; simp only [List.mem_singleton] at hh; subst hh; norm_num [hand5])⟩

/-! ## Per-function landmark guards (C10) -/

/-- C10 counterexample: a 240-point face landmark set is missing the
right cheek (index 454) — a required head-pose landmark — yet
`calculateMouthOpenness` still returns the nonzero ratio 0.3, not 0. -/
theorem mouthOpenness_nonzero_with_missing_cheek :
    getLm face240 454 = none ∧
      calculateMouthOpenness face240 = 3/10 ∧ (3/10 : ℝ) ≠ 0 := by
  refine ⟨rfl, ?_, by norm_num⟩
  have h13 : getLm face240 13 = some ⟨0, 0⟩ := rfl
  have h14 : getLm face240 14 = some ⟨0, 3/10⟩ := rfl
  have h10 : getLm face240 10 = some ⟨0, 0⟩ := rfl
  have h152 : getLm face240 152 = some ⟨0, 1⟩ := rfl
  simp only [calculateMouthOpenness, h13, h14, h10, h152]
  push_cast
  norm_num
  rw [show (9 : ℝ) = 3^2 by norm_num, show (100 : ℝ) = 10^2 by norm_num,
    Real.sqrt_sq (by norm_num : (0:ℝ) ≤ 3), Real.sqrt_sq (by norm_num : (0:ℝ) ≤ 10)]

/-- C10 (amended): each geometry function guards exactly its own required
landmarks — `calculateHeadPose` returns (0, 0) when any of the nose tip
(1), cheeks (234, 454), chin (152) or forehead (10) is missing, and
`calculateMouthOpenness` returns 0 when any of the inner lips (13, 14),
forehead (10) or chin (152) is missing; those neutral values can never
raise the looking-away or talking flags.  (A set missing only head-pose
landmarks can, however, still produce a nonzero mouth openness, and vice
versa.) -/
theorem landmark_guards_per_function :
    (∀ lm : List Point,
      (getLm lm 1 = none ∨ getLm lm 234 = none ∨ getLm lm 454 = none ∨
        getLm lm 152 = none ∨ getLm lm 10 = none) →
      calculateHeadPose lm = (0, 0)) ∧
    (∀ lm : List Point,
      (getLm lm 13 = none ∨ getLm lm 14 = none ∨ getLm lm 10 = none ∨
        getLm lm 152 = none) →
      calculateMouthOpenness lm = 0) ∧
    (∀ (cfg : AppConfig) (env : CaptureEnv) (now : ℤ) (st : Option ℤ)
        (log : LogState),
      (lookingAwayStep cfg env now 0 0 st log).1 = false) ∧
    (∀ (cfg : AppConfig) (env : CaptureEnv) (now : ℤ) (st : Option ℤ)
        (log : LogState),
      (talkingStep cfg env now 0 st log).1 = false) := by
  refine ⟨?_, ?_, ?_, ?_⟩
  · intro lm h
    rcases k1 : getLm lm 1 with _ | p1
    · simp [calculateHeadPose, k1]
    rcases k2 : getLm lm 234 with _ | p2
    · simp [calculateHeadPose, k1, k2]
    rcases k3 : getLm lm 454 with _ | p3
    · simp [calculateHeadPose, k1, k2, k3]
    rcases k4 : getLm lm 152 with _ | p4
    · simp [calculateHeadPose, k1, k2, k3, k4]
    rcases k5 : getLm lm 10 with _ | p5
    · simp [calculateHeadPose, k1, k2, k3, k4, k5]
    rcases h with h | h | h | h | h <;> simp_all
  · intro lm h
    rcases k1 : getLm lm 13 with _ | p1
    · simp [calculateMouthOpenness, k1]
    rcases k2 : getLm lm 14 with _ | p2
    · simp [calculateMouthOpenness, k1, k2]
    rcases k3 : getLm lm 10 with _ | p3
    · simp [calculateMouthOpenness, k1, k2, k3]
    rcases k4 : getLm lm 152 with _ | p4
    · simp [calculateMouthOpenness, k1, k2, k3, k4]
    rcases h with h | h | h | h <;> simp_all
  · intro cfg env now st log
    obtain ⟨p, ip, m, dm, v⟩ := cfg
    have hMW : (ExamMode.MCQ = ExamMode.Written) = False := by simp
    have hCW : (ExamMode.Coding = ExamMode.Written) = False := by simp
    have hWW : (ExamMode.Written = ExamMode.Written) = True := by simp
    cases m <;> norm_num [lookingAwayStep, abs_zero, hMW, hCW, hWW]
  · intro cfg env now st log
    have hcond : ¬((0 : ℝ) > 15/100 ∧ cfg.voiceActivityDetection = true) := by
      rintro ⟨h0, -⟩
      norm_num at h0
    rw [talkingStep.eq_def, if_neg hcond]

/-- Witness for `landmark_guards_per_function` at the empty landmark
set. -/
theorem landmark_guards_per_function_witness :
    calculateHeadPose [] = (0, 0) ∧ calculateMouthOpenness [] = 0 :=
  ⟨landmark_guards_per_function.1 [] (Or.inl rfl),
    landmark_guards_per_function.2.1 [] (Or.inl rfl)⟩

end ExamIntegrity
